import Mathlib

/-!
# covid-analytics: analytics layer, ingestion loop and query handlers

A shallow embedding of `internal/analytics.go`, `internal/sql.go`,
`internal/source.go` and `internal/http.go`.

Modelling conventions.

* Go `int` values are `Int`; the code performs no integer arithmetic on them
  (sums are computed by the SQL engine), only comparisons and conversions.
* `float64` values are elements of an arbitrary linearly ordered type `F` with a
  zero, and `float64(p) / float64(t)` is `fdiv p t` for an arbitrary function
  `fdiv : Int → Int → F`.  Every division in the code has a divisor that is
  non-zero, so no NaN can arise and the comparisons `<` and `>` on the results
  are those of a linear order.  Sample evaluations use exact rationals.
* `time.Time` values produced by the layout `2006-01-02` are days counted from
  the zero instant `time.Time{}`.
* Library functions (`time.Parse`, `strconv.Atoi`, `strconv.ParseFloat`,
  `math.Round`) are parameters.
* A Go map is a function into `Option`.
-/

namespace CovidAnalytics

/-! ## Data model (`internal/analytics.go`) -/

/-- A `time.Time` at midnight UTC: the number of days elapsed since the zero
instant `time.Time{}` (January 1 of year 1). -/
structure Time where
  sinceZero : Int
deriving DecidableEq, Repr

/-- The zero value `time.Time{}`. -/
def Time.zero : Time := ⟨0⟩

/-- One row of the table: tests of a department on a day for an age category. -/
structure DepartmentDailyReportPerAge where
  DepartmentNumber : String
  Day : Time
  AgeCategory : Int
  TestsTotal : Int
  TestsPositives : Int
  Population : Int
deriving DecidableEq, Repr

/-- National figures of one day. -/
structure NationalDailyReport (F : Type) where
  Day : Time
  TestsTotal : Int
  TestsPositives : Int
  Ratio : F

/-- The three extremal days of a department. -/
structure DepartmentResume where
  DayWithMostTests : Time
  DayWithMostPositives : Time
  DayWithHighestRatio : Time
deriving DecidableEq, Repr

/-- The leaderboard of one age category. -/
structure DailyTop5PerAgeCategory where
  Top5 : List DepartmentDailyReportPerAge
deriving DecidableEq, Repr

/-- The leaderboards of a day, a map from age category to leaderboard. -/
structure DailyTop5 where
  AgeCategories : Int → Option DailyTop5PerAgeCategory

/-- Exact quotient of two integers, the sample instance of `fdiv`. -/
def ratQuot (p t : Int) : ℚ := (p : ℚ) / (t : ℚ)

/-! ## `StorageSQL.DailyTop5` (`internal/sql.go`) -/

section Top5

variable {F : Type} [LinearOrder F] (fdiv : Int → Int → F)

/-- The quotient `float64(TestsPositives) / float64(TestsTotal)` of a record. -/
def ratioOf (r : DepartmentDailyReportPerAge) : F :=
  fdiv r.TestsPositives r.TestsTotal

/-- The inner loop of `DailyTop5` together with the append that follows it:
scan the list from the front, skip every entry whose quotient is strictly
greater than `q`, insert `report` before the first other entry, and append
it when every entry was skipped. -/
def insertTop5 (report : DepartmentDailyReportPerAge) (q : F) :
    List DepartmentDailyReportPerAge → List DepartmentDailyReportPerAge
  | [] => [report]
  | topReport :: rest =>
    if q < fdiv topReport.TestsPositives topReport.TestsTotal then
      topReport :: insertTop5 report q rest
    else
      report :: topReport :: rest

/-- One iteration of the outer loop of `DailyTop5`. -/
def top5Step (top5 : DailyTop5) (report : DepartmentDailyReportPerAge) : DailyTop5 :=
  if report.TestsTotal ≤ 10 then top5
  else
    let q := fdiv report.TestsPositives report.TestsTotal
    match top5.AgeCategories report.AgeCategory with
    | none =>
      ⟨Function.update top5.AgeCategories report.AgeCategory (some ⟨[report]⟩)⟩
    | some cat =>
      let inserted := insertTop5 fdiv report q cat.Top5
      let capped := if inserted.length > 5 then inserted.take 5 else inserted
      ⟨Function.update top5.AgeCategories report.AgeCategory (some ⟨capped⟩)⟩

/-- The method `StorageSQL.DailyTop5`, as a function of the outcome of
`s.Reports(day, day)`: the pair of the returned value and the returned error. -/
def StorageSQL.DailyTop5 (queried : Except String (List DepartmentDailyReportPerAge)) :
    DailyTop5 × Option String :=
  match queried with
  | .error e => (⟨fun _ => none⟩, some e)
  | .ok reports => (reports.foldl (top5Step fdiv) ⟨fun _ => none⟩, none)

/-- The records of category `c` with more than 10 tests, in arrival order. -/
def qualifying (reports : List DepartmentDailyReportPerAge) (c : Int) :
    List DepartmentDailyReportPerAge :=
  reports.filter (fun r => decide (10 < r.TestsTotal ∧ r.AgeCategory = c))

/-- The list obtained by inserting the records one after the other, each with
its own quotient, into an initially empty list that is never cut. -/
def ranked (l : List DepartmentDailyReportPerAge) : List DepartmentDailyReportPerAge :=
  l.foldl (fun acc x => insertTop5 fdiv x (ratioOf fdiv x) acc) []

end Top5

/-! ## Rows read from the database (`internal/sql.go`) -/

/-- The columns `day, sum(tests_total), sum(tests_positives)` of one row, as
`rows.Scan` stores them. -/
structure DayRow where
  dayStr : String
  testsTotal : Int
  testsPositives : Int
deriving DecidableEq, Repr

/-- The outcome of `db.Query` and of the successive `rows.Scan`: the query
fails, or it yields rows, each of which scans or fails to scan. -/
abbrev Queried (α : Type) := Except String (List (Except String α))

/-! ## `StorageSQL.NationalReports` -/

section National

variable {F : Type} [Zero F] (fdiv : Int → Int → F) (parseTime : String → Except String Time)

/-- The report built from a scanned row whose day parsed: `Ratio` keeps its
zero value unless `TestsTotal != 0`. -/
def nationalReportOf (day : Time) (row : DayRow) : NationalDailyReport F :=
  { Day := day
    TestsTotal := row.testsTotal
    TestsPositives := row.testsPositives
    Ratio := if row.testsTotal ≠ 0 then fdiv row.testsPositives row.testsTotal else 0 }

/-- The loop `for rows.Next()` of `NationalReports`; the second argument is the
slice `reports` accumulated so far. -/
def nationalLoop : List (Except String DayRow) → List (NationalDailyReport F) →
    List (NationalDailyReport F) × Option String
  | [], reports => (reports, none)
  | .error e :: _, reports => (reports, some ("cannot scan daily national report: " ++ e))
  | .ok row :: rest, reports =>
    match parseTime row.dayStr with
    | .error e => (reports, some ("invalid day data (" ++ row.dayStr ++ "): " ++ e))
    | .ok day => nationalLoop rest (reports ++ [nationalReportOf fdiv day row])

/-- The method `StorageSQL.NationalReports`, as a function of what the database
answers to the query. -/
def StorageSQL.NationalReports (queried : Queried DayRow) :
    List (NationalDailyReport F) × Option String :=
  match queried with
  | .error e => ([], some ("cannot query national reports: " ++ e))
  | .ok rows => nationalLoop fdiv parseTime rows []

end National

/-! ## `StorageSQL.DepartmentResume` -/

section Resume

variable {F : Type} [LinearOrder F] [Zero F] (fdiv : Int → Int → F)
  (parseTime : String → Except String Time)

/-- The local variables of `DepartmentResume` that the loop updates. -/
structure ResumeState (F : Type) where
  resume : DepartmentResume
  maxTests : Int
  maxPositives : Int
  maxRatio : F

/-- The variables before the loop: three zero dates and three zero maxima. -/
def ResumeState.init : ResumeState F :=
  { resume := ⟨Time.zero, Time.zero, Time.zero⟩, maxTests := 0, maxPositives := 0, maxRatio := 0 }

/-- The loop body of `DepartmentResume` after a successful scan and parse. -/
def resumeBody (st : ResumeState F) (day : Time) (testsTotal testsPositives : Int) :
    ResumeState F :=
  if testsTotal ≤ 10 then st
  else
    let ratio : F := if testsTotal > 0 then fdiv testsPositives testsTotal else 0
    let st1 : ResumeState F :=
      if testsTotal > st.maxTests then
        { st with resume := { st.resume with DayWithMostTests := day }, maxTests := testsTotal }
      else st
    let st2 : ResumeState F :=
      if testsPositives > st1.maxPositives then
        { st1 with resume := { st1.resume with DayWithMostPositives := day },
                   maxPositives := testsPositives }
      else st1
    if ratio > st2.maxRatio then
      { st2 with resume := { st2.resume with DayWithHighestRatio := day }, maxRatio := ratio }
    else st2

/-- The loop `for rows.Next()` of `DepartmentResume`. -/
def resumeLoop : List (Except String DayRow) → ResumeState F → DepartmentResume × Option String
  | [], st => (st.resume, none)
  | .error e :: _, st => (st.resume, some ("cannot scan department resume: " ++ e))
  | .ok row :: rest, st =>
    match parseTime row.dayStr with
    | .error e => (st.resume, some ("invalid day data (" ++ row.dayStr ++ "): " ++ e))
    | .ok day => resumeLoop rest (resumeBody fdiv st day row.testsTotal row.testsPositives)

/-- The method `StorageSQL.DepartmentResume`, as a function of what the database
answers to the query. -/
def StorageSQL.DepartmentResume (queried : Queried DayRow) : DepartmentResume × Option String :=
  match queried with
  | .error e => (⟨Time.zero, Time.zero, Time.zero⟩, some ("cannot query department resume: " ++ e))
  | .ok rows => resumeLoop fdiv parseTime rows ResumeState.init

/-- The answer of the database when the query and every scan succeed. -/
def scanned (rows : List DayRow) : Queried DayRow := .ok (rows.map .ok)

/-- The day of a scanned row: what `time.Parse` makes of its day column (the
zero date stands in when the column does not parse). -/
def dayOf (row : DayRow) : Time :=
  match parseTime row.dayStr with
  | .ok day => day
  | .error _ => Time.zero

/-- The loop body of `DepartmentResume` on a scanned row whose day parses. -/
def resumeStep (st : ResumeState F) (row : DayRow) : ResumeState F :=
  resumeBody fdiv st (dayOf parseTime row) row.testsTotal row.testsPositives

/-- A list of days is in ascending order. -/
def ascendingDays (days : List Time) : Prop :=
  days.Pairwise (fun a b => a.sinceZero ≤ b.sinceZero)

end Resume

/-! ## `DataGouvSource.Get` (`internal/source.go`) -/

section Source

variable {Fl : Type} (parseTime : String → Except String Time)
  (atoi : String → Except String Int) (parseFloat : String → Except String Fl)
  (round : Fl → Int)

/-- The variable `expectedCSVHeaders`. -/
def expectedCSVHeaders : List String := ["dep", "jour", "P", "T", "cl_age90", "pop"]

/-- The loop of `isCSVHeaderValid` from index `i` on, over the expected headers
that remain. -/
def headersMatchFrom (headers : List String) : Nat → List String → Bool
  | _, [] => true
  | i, expectedHeader :: rest =>
    if headers[i]? ≠ some expectedHeader then false
    else headersMatchFrom headers (i + 1) rest

/-- The function `isCSVHeaderValid`. -/
def isCSVHeaderValid (headers : List String) : Bool :=
  if headers.length ≠ expectedCSVHeaders.length then false
  else headersMatchFrom headers 0 expectedCSVHeaders

/-- The function `parseCSVRow`.  The result is `none` when an index expression
`row[i]` is out of range (a run-time panic), and otherwise the returned report or
the returned error. -/
def parseCSVRow (row : List String) : Option (Except String DepartmentDailyReportPerAge) := do
  let dep ← row[0]?
  let dayStr ← row[1]?
  match parseTime dayStr with
  | .error e => pure (.error ("invalid day (" ++ dayStr ++ "): " ++ e))
  | .ok day =>
    let ageStr ← row[4]?
    match atoi ageStr with
    | .error e => pure (.error ("invalid age category (" ++ ageStr ++ "): " ++ e))
    | .ok ageCategory =>
      let totalStr ← row[3]?
      match atoi totalStr with
      | .error e => pure (.error ("invalid total tests (" ++ totalStr ++ "): " ++ e))
      | .ok testsTotal =>
        let positivesStr ← row[2]?
        match atoi positivesStr with
        | .error e => pure (.error ("invalid total tests (" ++ positivesStr ++ "): " ++ e))
        | .ok testsPositives =>
          let popStr ← row[5]?
          match atoi popStr with
          | .ok population =>
            pure (.ok ⟨dep, day, ageCategory, testsTotal, testsPositives, population⟩)
          | .error _ =>
            match parseFloat popStr with
            | .error e => pure (.error ("invalid population (" ++ popStr ++ "): " ++ e))
            | .ok populationFloat =>
              pure (.ok ⟨dep, day, ageCategory, testsTotal, testsPositives,
                round populationFloat⟩)

/-- What `http.Get` and `reader.ReadAll` hand to the loop of `Get`. -/
inductive Fetched where
  | transportError (e : String)
  | csvError (e : String)
  | data (rows : List (List String))

/-- The iterations `i > 0` of the loop of `Get`; the second argument is the slice
`reports` accumulated so far.  A row that fails to parse is logged and skipped.
The result is `none` when `parseCSVRow` panics. -/
def getLoop : List (List String) → List DepartmentDailyReportPerAge →
    Option (List DepartmentDailyReportPerAge)
  | [], reports => some reports
  | row :: rest, reports =>
    match parseCSVRow parseTime atoi parseFloat round row with
    | none => none
    | some (.error _) => getLoop rest reports
    | some (.ok report) => getLoop rest (reports ++ [report])

/-- The method `DataGouvSource.Get`: the returned slice (`nil` is the empty list)
and the returned error, or `none` when the call panics. -/
def DataGouvSource.Get (fetched : Fetched) :
    Option (List DepartmentDailyReportPerAge × Option String) :=
  match fetched with
  | .transportError e => some ([], some ("unable to retrieve csv file from url: " ++ e))
  | .csvError e => some ([], some ("unable to parse csv file from url: " ++ e))
  | .data [] => some ([], none)
  | .data (header :: rows) =>
    if !isCSVHeaderValid header then
      some ([], some "invalid csv headers - this csv format is not supported")
    else
      (getLoop parseTime atoi parseFloat round rows []).map (fun reports => (reports, none))

/-- The data rows that `parseCSVRow` accepts, with its results, in order. -/
def parsedRows (rows : List (List String)) : List DepartmentDailyReportPerAge :=
  rows.filterMap (fun row =>
    match parseCSVRow parseTime atoi parseFloat round row with
    | some (.ok report) => some report
    | _ => none)

end Source

/-! ## Handlers (`internal/http.go`) -/

section Http

variable {F : Type} (parseTime : String → Except String Time)

/-- The type `ErrorResponse`. -/
structure ErrorResponse where
  Error : String
deriving DecidableEq, Repr

/-- The interface `Storage`: each method gives its returned values and its
returned error. -/
structure Storage (F : Type) where
  Save : List DepartmentDailyReportPerAge → Option String
  Departments : List String × Option String
  AgeCategories : List Int × Option String
  Reports : Time → Time → List String → List DepartmentDailyReportPerAge × Option String
  DaysLimit : Time × Time × Option String
  NationalReports : Time → Time → List (NationalDailyReport F) × Option String
  DepartmentResume : String → DepartmentResume × Option String
  DailyTop5 : Time → DailyTop5 × Option String

/-- A call of a method of the storage, with its arguments. -/
inductive StorageCall where
  | Save (reports : List DepartmentDailyReportPerAge)
  | Departments
  | AgeCategories
  | Reports (fromT toT : Time) (departments : List String)
  | DaysLimit
  | NationalReports (fromT toT : Time)
  | DepartmentResume (department : String)
  | DailyTop5 (day : Time)
deriving DecidableEq, Repr

/-- The value that a handler hands to the JSON encoder. -/
inductive Payload (F : Type) where
  | error (e : ErrorResponse)
  | result (s : String)
  | departments (l : List String)
  | ageCategories (l : List Int)
  | daysLimit (fromT toT : Time)
  | reports (l : List DepartmentDailyReportPerAge)
  | nationalReports (l : List (NationalDailyReport F))
  | departmentResume (r : DepartmentResume)
  | dailyTop5 (t : DailyTop5)

/-- One call of `writeJSONResponse`: the status and the encoded value. -/
structure Written (F : Type) where
  status : Nat
  body : Payload F

/-- What a handler did: the calls it made to the storage and the responses it
wrote, both in order. -/
structure Exchange (F : Type) where
  calls : List StorageCall
  written : List (Written F)

/-- The state of a handler on entry. -/
def Exchange.start : Exchange F := ⟨[], []⟩

/-- The query of the request, `r.URL.Query()`: a map from key to values. -/
abbrev Query := String → Option (List String)

/-- The constants `http.StatusOK`, `http.StatusBadRequest` and
`http.StatusInternalServerError`. -/
def StatusOK : Nat := 200

/-- See `StatusOK`. -/
def StatusBadRequest : Nat := 400

/-- See `StatusOK`. -/
def StatusInternalServerError : Nat := 500

/-- The function `writeJSONResponse`. -/
def writeJSONResponse (w : Exchange F) (status : Nat) (response : Payload F) : Exchange F :=
  { w with written := w.written ++ [⟨status, response⟩] }

/-- The function `writeJSONError`. -/
def writeJSONError (w : Exchange F) (err : String) : Exchange F :=
  writeJSONResponse w StatusInternalServerError (.error ⟨err⟩)

/-- Record a call to the storage. -/
def called (w : Exchange F) (c : StorageCall) : Exchange F :=
  { w with calls := w.calls ++ [c] }

/-- The type `AnalyticsHandler`. -/
structure AnalyticsHandler (F : Type) where
  storage : Storage F

/-- The method `AnalyticsHandler.DepartmentListHandler`. -/
def AnalyticsHandler.DepartmentListHandler (h : AnalyticsHandler F) (_query : Query) :
    Exchange F :=
  let w := called Exchange.start .Departments
  match h.storage.Departments with
  | (_, some err) => writeJSONError w err
  | (departments, none) => writeJSONResponse w StatusOK (.departments departments)

/-- The method `AnalyticsHandler.AgeCategoryListHandler`. -/
def AnalyticsHandler.AgeCategoryListHandler (h : AnalyticsHandler F) (_query : Query) :
    Exchange F :=
  let w := called Exchange.start .AgeCategories
  match h.storage.AgeCategories with
  | (_, some err) => writeJSONError w err
  | (ageCategories, none) => writeJSONResponse w StatusOK (.ageCategories ageCategories)

/-- The method `AnalyticsHandler.DaysLimitHandler`: after `writeJSONError` the
function does not return and goes on to write the success response. -/
def AnalyticsHandler.DaysLimitHandler (h : AnalyticsHandler F) (_query : Query) : Exchange F :=
  let w := called Exchange.start .DaysLimit
  match h.storage.DaysLimit with
  | (fromT, toT, err) =>
    let w1 := match err with
      | some e => writeJSONError w e
      | none => w
    writeJSONResponse w1 StatusOK (.daysLimit fromT toT)

/-- The method `AnalyticsHandler.DataHandler`. -/
def AnalyticsHandler.DataHandler (h : AnalyticsHandler F) (query : Query) : Exchange F :=
  let w : Exchange F := Exchange.start
  match query "from" with
  | some [fromStr] =>
    match parseTime fromStr with
    | .error e =>
      writeJSONResponse w StatusBadRequest (.error ⟨"from must be a date: " ++ e⟩)
    | .ok fromT =>
      match query "to" with
      | some [toStr] =>
        match parseTime toStr with
        | .error e =>
          writeJSONResponse w StatusBadRequest (.error ⟨"to must be a date: " ++ e⟩)
        | .ok toT =>
          match query "departments" with
          | some (d :: ds) =>
            let w1 := called w (.Reports fromT toT (d :: ds))
            match h.storage.Reports fromT toT (d :: ds) with
            | (_, some err) => writeJSONError w1 err
            | (data, none) => writeJSONResponse w1 StatusOK (.reports data)
          | _ =>
            writeJSONResponse w StatusBadRequest
              (.error ⟨"query param departments is mandatory"⟩)
      | _ => writeJSONResponse w StatusBadRequest (.error ⟨"query param to is mandatory"⟩)
  | _ => writeJSONResponse w StatusBadRequest (.error ⟨"query param from is mandatory"⟩)

/-- The method `AnalyticsHandler.NationalReportsHandler`. -/
def AnalyticsHandler.NationalReportsHandler (h : AnalyticsHandler F) (query : Query) :
    Exchange F :=
  let w : Exchange F := Exchange.start
  match query "from" with
  | some [fromStr] =>
    match parseTime fromStr with
    | .error e =>
      writeJSONResponse w StatusBadRequest (.error ⟨"from must be a date: " ++ e⟩)
    | .ok fromT =>
      match query "to" with
      | some [toStr] =>
        match parseTime toStr with
        | .error e =>
          writeJSONResponse w StatusBadRequest (.error ⟨"to must be a date: " ++ e⟩)
        | .ok toT =>
          let w1 := called w (.NationalReports fromT toT)
          match h.storage.NationalReports fromT toT with
          | (_, some err) => writeJSONError w1 err
          | (reports, none) => writeJSONResponse w1 StatusOK (.nationalReports reports)
      | _ => writeJSONResponse w StatusBadRequest (.error ⟨"query param to is mandatory"⟩)
  | _ => writeJSONResponse w StatusBadRequest (.error ⟨"query param from is mandatory"⟩)

/-- The method `AnalyticsHandler.DepartmentResumeHandler`. -/
def AnalyticsHandler.DepartmentResumeHandler (h : AnalyticsHandler F) (query : Query) :
    Exchange F :=
  let w : Exchange F := Exchange.start
  match query "department" with
  | some [department] =>
    let w1 := called w (.DepartmentResume department)
    match h.storage.DepartmentResume department with
    | (_, some err) => writeJSONError w1 err
    | (data, none) => writeJSONResponse w1 StatusOK (.departmentResume data)
  | _ =>
    writeJSONResponse w StatusBadRequest (.error ⟨"query param department is mandatory"⟩)

/-- The method `AnalyticsHandler.DailyTop5Handler`. -/
def AnalyticsHandler.DailyTop5Handler (h : AnalyticsHandler F) (query : Query) : Exchange F :=
  let w : Exchange F := Exchange.start
  match query "day" with
  | some [dayStr] =>
    match parseTime dayStr with
    | .error e =>
      writeJSONResponse w StatusBadRequest (.error ⟨"day must be a date: " ++ e⟩)
    | .ok day =>
      let w1 := called w (.DailyTop5 day)
      match h.storage.DailyTop5 day with
      | (_, some err) => writeJSONError w1 err
      | (top5, none) => writeJSONResponse w1 StatusOK (.dailyTop5 top5)
  | _ => writeJSONResponse w StatusBadRequest (.error ⟨"query param day is mandatory"⟩)

/-- The parameter `key` of the query is absent, or has a number of values other
than one. -/
def badParam (query : Query) (key : String) : Prop :=
  query key = none ∨ ∃ values, query key = some values ∧ values.length ≠ 1

/-- The date parameter `key` of the query is absent, or has a number of values
other than one, or has one value that does not parse as a date. -/
def badDate (query : Query) (key : String) : Prop :=
  badParam query key ∨ ∃ value e, query key = some [value] ∧ parseTime value = .error e

/-- The handler made no call to the storage and wrote one response, of status
400, with an error object as its body. -/
def rejected (w : Exchange F) : Prop :=
  w.calls = [] ∧ ∃ msg, w.written = [⟨StatusBadRequest, .error ⟨msg⟩⟩]

/-- The response that follows a call to the storage whose outcome is `res`: the
error object with status 500 when the call returned an error, and the returned
value, as the body `body` makes of it, with status 200 otherwise. -/
def storeResponse {α : Type} (body : α → Payload F) (res : α × Option String) : Written F :=
  match res.2 with
  | some err => ⟨StatusInternalServerError, .error ⟨err⟩⟩
  | none => ⟨StatusOK, body res.1⟩

/-- The handler wrote exactly one response, of status 500, whose body is the
error object carrying `msg`. -/
def failedWith (w : Exchange F) (msg : String) : Prop :=
  w.written = [⟨StatusInternalServerError, .error ⟨msg⟩⟩]

end Http

/-! ## Sample inputs -/

/-- Sample record. -/
def mkReport (dep : String) (age total positives : Int) : DepartmentDailyReportPerAge :=
  ⟨dep, ⟨737557⟩, age, total, positives, 1000⟩

/-- Value of a decimal digit. -/
def digitVal (c : Char) : Option Nat :=
  if c.isDigit then some (c.toNat - 48) else none

/-- Whether a year is a leap year. -/
def isLeap (y : Nat) : Bool := y % 4 == 0 && (y % 100 != 0 || y % 400 == 0)

/-- Number of days of a month. -/
def daysIn (m y : Nat) : Nat :=
  if m == 2 then (if isLeap y then 29 else 28)
  else if m == 4 || m == 6 || m == 9 || m == 11 then 30 else 31

/-- Days between January 1 of year 1 and the given date. -/
def daysSinceZero (y m d : Nat) : Nat :=
  365 * (y - 1) + (y - 1) / 4 - (y - 1) / 100 + (y - 1) / 400
    + ((List.range (m - 1)).map (fun i => daysIn (i + 1) y)).sum + (d - 1)

/-- A sample instance of the date parser: accepts exactly the strings
`YYYY-MM-DD` that name a day of the calendar. -/
def sampleParseTime (s : String) : Except String Time :=
  match s.toList with
  | [y1, y2, y3, y4, '-', m1, m2, '-', d1, d2] =>
    match digitVal y1, digitVal y2, digitVal y3, digitVal y4,
          digitVal m1, digitVal m2, digitVal d1, digitVal d2 with
    | some a, some b, some c, some d, some e, some f, some g, some h =>
      let y := 1000 * a + 100 * b + 10 * c + d
      let m := 10 * e + f
      let dd := 10 * g + h
      if 1 ≤ m ∧ m ≤ 12 ∧ 1 ≤ dd ∧ dd ≤ daysIn m y then .ok ⟨(daysSinceZero y m dd : Nat)⟩
      else .error "day out of range"
    | _, _, _, _, _, _, _, _ => .error "cannot parse as date"
  | _ => .error "cannot parse as date"

/-- Value of a non-empty string of decimal digits. -/
def natOfDigits (cs : List Char) : Option Nat :=
  if cs = [] then none
  else cs.foldl (fun acc c =>
    match acc, digitVal c with
    | some n, some d => some (10 * n + d)
    | _, _ => none) (some 0)

/-- A sample instance of the integer parser: an optional sign followed by
decimal digits. -/
def sampleAtoi (s : String) : Except String Int :=
  match s.toList with
  | '-' :: ds =>
    match natOfDigits ds with
    | some n => .ok (-(n : Int))
    | none => .error "invalid syntax"
  | '+' :: ds =>
    match natOfDigits ds with
    | some n => .ok (n : Int)
    | none => .error "invalid syntax"
  | ds =>
    match natOfDigits ds with
    | some n => .ok (n : Int)
    | none => .error "invalid syntax"

/-- A sample instance of the decimal parser: digits, a point, digits, read as
tenths, hundredths and so on. -/
def sampleParseFloat (s : String) : Except String (Int × Nat) :=
  match s.toList.span (fun c => c != '.') with
  | (whole, '.' :: frac) =>
    match natOfDigits (whole ++ frac) with
    | some n => .ok ((n : Int), frac.length)
    | none => .error "invalid syntax"
  | _ => .error "invalid syntax"

/-- A sample instance of the rounding to the nearest integer, halves away from
zero, of a non-negative decimal `n / 10 ^ k`. -/
def sampleRound (x : Int × Nat) : Int :=
  (2 * x.1 + 10 ^ x.2) / (2 * 10 ^ x.2)

/-- A sample storage, the answers of a database whose table is empty: no
department, no age category, no record; `min(day)` and `max(day)` are NULL and
do not scan. -/
def emptyStorage : Storage ℚ :=
  { Save := fun _ => none
    Departments := ([], none)
    AgeCategories := ([], none)
    Reports := fun _ _ _ => ([], none)
    DaysLimit := (Time.zero, Time.zero,
      some "cannot scan days limit: converting NULL to string is unsupported")
    NationalReports := fun _ _ => StorageSQL.NationalReports ratQuot sampleParseTime (scanned [])
    DepartmentResume := fun _ =>
      StorageSQL.DepartmentResume ratQuot sampleParseTime (scanned [])
    DailyTop5 := fun _ => StorageSQL.DailyTop5 ratQuot (.ok []) }

/-- A sample storage every method of which fails, as when the database cannot
be reached. -/
def failingStorage : Storage ℚ :=
  { Save := fun _ => some "connection refused"
    Departments := ([], some "cannot retrieve departments: connection refused")
    AgeCategories := ([], some "cannot retrieve age categories: connection refused")
    Reports := fun _ _ _ => ([], some "cannot query reports: connection refused")
    DaysLimit := (Time.zero, Time.zero, some "cannot retrieve days limit: connection refused")
    NationalReports := fun _ _ =>
      StorageSQL.NationalReports ratQuot sampleParseTime (.error "connection refused")
    DepartmentResume := fun _ =>
      StorageSQL.DepartmentResume ratQuot sampleParseTime (.error "connection refused")
    DailyTop5 := fun _ =>
      StorageSQL.DailyTop5 ratQuot (.error "cannot query reports: connection refused") }

/-- A sample query: the given keys with their values, no other key. -/
def queryOf (params : List (String × List String)) : Query :=
  fun key => (params.find? (fun kv => kv.1 == key)).map (fun kv => kv.2)

/-! ## Properties of the leaderboards -/

section Top5Proofs

variable {F : Type} [LinearOrder F] (fdiv : Int → Int → F)

theorem insertTop5_perm (x : DepartmentDailyReportPerAge) (q : F)
    (l : List DepartmentDailyReportPerAge) :
    (insertTop5 fdiv x q l).Perm (x :: l) := by
  induction l with
  | nil => exact List.Perm.refl _
  | cons b l ih =>
    unfold insertTop5
    split_ifs
    · exact (List.Perm.cons b ih).trans (List.Perm.swap x b l)
    · exact List.Perm.refl _

theorem sublist_insertTop5 (x : DepartmentDailyReportPerAge) (q : F)
    (l : List DepartmentDailyReportPerAge) :
    l.Sublist (insertTop5 fdiv x q l) := by
  induction l with
  | nil => exact List.nil_sublist _
  | cons b l ih =>
    unfold insertTop5
    split_ifs
    · exact ih.cons₂ b
    · exact List.sublist_cons_self x (b :: l)

theorem insertTop5_sorted (x : DepartmentDailyReportPerAge)
    (l : List DepartmentDailyReportPerAge)
    (h : l.Pairwise (fun a b => ratioOf fdiv b ≤ ratioOf fdiv a)) :
    (insertTop5 fdiv x (ratioOf fdiv x) l).Pairwise
      (fun a b => ratioOf fdiv b ≤ ratioOf fdiv a) := by
  induction l with
  | nil => simp [insertTop5]
  | cons b l ih =>
    unfold insertTop5
    rw [List.pairwise_cons] at h
    split_ifs with hlt
    · rw [List.pairwise_cons]
      refine ⟨fun y hy => ?_, ih h.2⟩
      rcases List.mem_cons.1 ((insertTop5_perm fdiv x _ l).subset hy) with rfl | hy
      · exact le_of_lt hlt
      · exact h.1 y hy
    · have hle : ratioOf fdiv b ≤ ratioOf fdiv x := not_lt.1 hlt
      rw [List.pairwise_cons]
      refine ⟨fun y hy => ?_, List.pairwise_cons.2 h⟩
      rcases List.mem_cons.1 hy with rfl | hy
      · exact hle
      · exact le_trans (h.1 y hy) hle

theorem take_cons_take (n : Nat) (b : DepartmentDailyReportPerAge)
    (l : List DepartmentDailyReportPerAge) :
    (b :: l.take n).take n = (b :: l).take n := by
  cases n with
  | zero => rfl
  | succ m => simp [List.take_take]

theorem take_insertTop5 (x : DepartmentDailyReportPerAge) (q : F) (n : Nat)
    (l : List DepartmentDailyReportPerAge) :
    (insertTop5 fdiv x q (l.take n)).take n = (insertTop5 fdiv x q l).take n := by
  induction l generalizing n with
  | nil => simp
  | cons b l ih =>
    cases n with
    | zero => simp
    | succ m =>
      simp only [List.take_succ_cons]
      unfold insertTop5
      split_ifs
      · simp only [List.take_succ_cons, ih]
      · simp only [List.take_succ_cons, take_cons_take]

theorem insertTop5_pair (x a : DepartmentDailyReportPerAge) (q : F)
    (l : List DepartmentDailyReportPerAge) (ha : a ∈ l) (hq : ratioOf fdiv a ≤ q) :
    [x, a].Sublist (insertTop5 fdiv x q l) := by
  induction l with
  | nil => simp at ha
  | cons b l ih =>
    unfold insertTop5
    split_ifs with hlt
    · rcases List.mem_cons.1 ha with rfl | ha
      · exact absurd hlt (not_lt.2 hq)
      · exact (ih ha).cons b
    · exact (List.singleton_sublist.2 ha).cons₂ x

theorem ranked_append_singleton (l : List DepartmentDailyReportPerAge)
    (x : DepartmentDailyReportPerAge) :
    ranked fdiv (l ++ [x]) = insertTop5 fdiv x (ratioOf fdiv x) (ranked fdiv l) := by
  simp [ranked, List.foldl_append]

theorem ranked_perm (l : List DepartmentDailyReportPerAge) : (ranked fdiv l).Perm l := by
  induction l using List.reverseRecOn with
  | nil => exact List.Perm.refl _
  | append_singleton l x ih =>
    rw [ranked_append_singleton]
    exact ((insertTop5_perm fdiv x _ _).trans (List.Perm.cons x ih)).trans
      (List.perm_append_singleton x l).symm

theorem ranked_sorted (l : List DepartmentDailyReportPerAge) :
    (ranked fdiv l).Pairwise (fun a b => ratioOf fdiv b ≤ ratioOf fdiv a) := by
  induction l using List.reverseRecOn with
  | nil => simp [ranked]
  | append_singleton l x ih =>
    rw [ranked_append_singleton]
    exact insertTop5_sorted fdiv x _ ih

theorem ranked_reverses (a b : DepartmentDailyReportPerAge)
    (l : List DepartmentDailyReportPerAge) (hab : ratioOf fdiv a ≤ ratioOf fdiv b)
    (h : [a, b].Sublist l) : [b, a].Sublist (ranked fdiv l) := by
  induction l using List.reverseRecOn with
  | nil => simp at h
  | append_singleton l x ih =>
    rw [ranked_append_singleton]
    rcases List.sublist_append_iff.1 h with ⟨l₁, l₂, hl, h₁, h₂⟩
    rcases List.sublist_singleton.1 h₂ with rfl | rfl
    · rw [List.append_nil] at hl
      subst hl
      exact (ih h₁).trans (sublist_insertTop5 fdiv x _ _)
    · have hl' : l₁ = [a] ∧ b = x := by
        rcases l₁ with _ | ⟨y, _ | ⟨z, t⟩⟩ <;> simp_all
      obtain ⟨rfl, rfl⟩ := hl'
      have hmem : a ∈ ranked fdiv l :=
        (ranked_perm fdiv l).symm.subset (List.singleton_sublist.1 h₁)
      exact insertTop5_pair fdiv b a _ _ hmem hab

theorem qualifying_append_singleton (l : List DepartmentDailyReportPerAge)
    (x : DepartmentDailyReportPerAge) (c : Int) :
    qualifying (l ++ [x]) c =
      if 10 < x.TestsTotal ∧ x.AgeCategory = c then qualifying l c ++ [x]
      else qualifying l c := by
  unfold qualifying
  rw [List.filter_append]
  by_cases h : 10 < x.TestsTotal ∧ x.AgeCategory = c
  · simp [h]
  · simp [h]

theorem cap_eq_take (m : List DepartmentDailyReportPerAge) :
    (if m.length > 5 then m.take 5 else m) = m.take 5 := by
  split_ifs with hm
  · rfl
  · exact (List.take_of_length_le (not_lt.1 hm)).symm

theorem top5Step_apply (m : DailyTop5) (x : DepartmentDailyReportPerAge) (c : Int) :
    (top5Step fdiv m x).AgeCategories c =
      if 10 < x.TestsTotal ∧ x.AgeCategory = c then
        match m.AgeCategories c with
        | none => some ⟨[x]⟩
        | some cat => some ⟨(insertTop5 fdiv x (ratioOf fdiv x) cat.Top5).take 5⟩
      else m.AgeCategories c := by
  unfold top5Step
  by_cases hx : x.TestsTotal ≤ 10
  · have hx' : ¬ (10 < x.TestsTotal ∧ x.AgeCategory = c) := fun h => absurd h.1 (not_lt.2 hx)
    rw [if_pos hx, if_neg hx']
  · rw [if_neg hx]
    have hx10 : 10 < x.TestsTotal := not_le.1 hx
    by_cases hc : x.AgeCategory = c
    · subst hc
      rw [if_pos ⟨hx10, rfl⟩]
      cases hm : m.AgeCategories x.AgeCategory with
      | none => simp
      | some cat => simp [cap_eq_take, ratioOf]
    · have hc' : c ≠ x.AgeCategory := fun h => hc h.symm
      have hx' : ¬ (10 < x.TestsTotal ∧ x.AgeCategory = c) := fun h => hc h.2
      rw [if_neg hx']
      cases hm : m.AgeCategories x.AgeCategory with
      | none => simp [Function.update_noteq hc']
      | some cat => simp [Function.update_noteq hc']

theorem foldl_top5Step_apply (reports : List DepartmentDailyReportPerAge) :
    ∀ c : Int, (reports.foldl (top5Step fdiv) ⟨fun _ => none⟩).AgeCategories c =
      if qualifying reports c = [] then none
      else some ⟨(ranked fdiv (qualifying reports c)).take 5⟩ := by
  induction reports using List.reverseRecOn with
  | nil => intro c; simp [qualifying]
  | append_singleton l x ih =>
    intro c
    rw [List.foldl_append, List.foldl_cons, List.foldl_nil, qualifying_append_singleton,
      top5Step_apply, ih c]
    by_cases hx : 10 < x.TestsTotal ∧ x.AgeCategory = c
    · rw [if_pos hx, if_pos hx]
      by_cases hq : qualifying l c = []
      · simp [hq, ranked, insertTop5]
      · simp [hq, ranked_append_singleton, take_insertTop5]
    · rw [if_neg hx, if_neg hx]

theorem mem_qualifying {reports : List DepartmentDailyReportPerAge} {c : Int}
    {r : DepartmentDailyReportPerAge} :
    r ∈ qualifying reports c ↔ r ∈ reports ∧ 10 < r.TestsTotal ∧ r.AgeCategory = c := by
  simp [qualifying]

/-- Claim C1: every leaderboard returned by `DailyTop5` has at most 5 entries
and is sorted by non-increasing quotient: of two adjacent entries, the earlier
one has a quotient greater than or equal to that of the later one. -/
theorem dailyTop5_length_sorted (reports : List DepartmentDailyReportPerAge) (c : Int)
    (cat : DailyTop5PerAgeCategory)
    (h : (StorageSQL.DailyTop5 fdiv (.ok reports)).1.AgeCategories c = some cat) :
    cat.Top5.length ≤ 5 ∧
      cat.Top5.Chain' (fun earlier later => ratioOf fdiv earlier ≥ ratioOf fdiv later) := by
  have h' : (reports.foldl (top5Step fdiv) ⟨fun _ => none⟩).AgeCategories c = some cat := h
  rw [foldl_top5Step_apply] at h'
  split_ifs at h' with hq
  injection h' with h'
  subst h'
  refine ⟨by simp, List.Pairwise.chain' ?_⟩
  exact (ranked_sorted fdiv _).sublist (List.take_sublist 5 _)

/-- Claim C2: for an age category with no record of more than 10 tests the map
has no key; otherwise the leaderboard has `min 5 n` entries, `n` being the
number of records of the category with more than 10 tests, every entry is such
a record of the input, the entries together with the records left out are the
qualifying records, and every record left out has a quotient less than or
equal to that of every entry kept. -/
theorem dailyTop5_is_top5 (reports : List DepartmentDailyReportPerAge) (c : Int) :
    ((∀ r ∈ reports, r.AgeCategory = c → r.TestsTotal ≤ 10) →
        (StorageSQL.DailyTop5 fdiv (.ok reports)).1.AgeCategories c = none) ∧
    ((∃ r ∈ reports, r.AgeCategory = c ∧ 10 < r.TestsTotal) →
      ∃ top : List DepartmentDailyReportPerAge,
        (StorageSQL.DailyTop5 fdiv (.ok reports)).1.AgeCategories c = some ⟨top⟩ ∧
        top.length = min 5 (qualifying reports c).length ∧
        (∀ r ∈ top, r ∈ reports ∧ r.AgeCategory = c ∧ 10 < r.TestsTotal) ∧
        (∃ dropped : List DepartmentDailyReportPerAge,
          (top ++ dropped).Perm (qualifying reports c) ∧
          ∀ d ∈ dropped, ∀ k ∈ top, ratioOf fdiv d ≤ ratioOf fdiv k) ∧
        (∀ r ∈ reports, r.AgeCategory = c → 10 < r.TestsTotal → r ∉ top →
          ∀ k ∈ top, ratioOf fdiv r ≤ ratioOf fdiv k)) := by
  have key := foldl_top5Step_apply fdiv reports c
  have hsplit : (ranked fdiv (qualifying reports c)).take 5 ++
      (ranked fdiv (qualifying reports c)).drop 5 = ranked fdiv (qualifying reports c) :=
    List.take_append_drop 5 _
  have hdrop : ∀ d ∈ (ranked fdiv (qualifying reports c)).drop 5,
      ∀ k ∈ (ranked fdiv (qualifying reports c)).take 5, ratioOf fdiv d ≤ ratioOf fdiv k := by
    have hs := ranked_sorted fdiv (qualifying reports c)
    rw [← hsplit, List.pairwise_append] at hs
    exact fun d hd k hk => hs.2.2 k hk d hd
  constructor
  · intro hnone
    have hq : qualifying reports c = [] := by
      rw [List.eq_nil_iff_forall_not_mem]
      intro r hr
      rw [mem_qualifying] at hr
      exact absurd hr.2.1 (not_lt.2 (hnone r hr.1 hr.2.2))
    show (reports.foldl (top5Step fdiv) ⟨fun _ => none⟩).AgeCategories c = none
    rw [key, if_pos hq]
  · rintro ⟨r, hr, hrc, hr10⟩
    have hq : qualifying reports c ≠ [] :=
      List.ne_nil_of_mem (mem_qualifying.2 ⟨hr, hr10, hrc⟩)
    refine ⟨(ranked fdiv (qualifying reports c)).take 5, ?_, ?_, ?_, ?_, ?_⟩
    · show (reports.foldl (top5Step fdiv) ⟨fun _ => none⟩).AgeCategories c = _
      rw [key, if_neg hq]
    · rw [List.length_take, (ranked_perm fdiv _).length_eq]
    · intro k hk
      have := mem_qualifying.1 ((ranked_perm fdiv _).subset (List.mem_of_mem_take hk))
      exact ⟨this.1, this.2.2, this.2.1⟩
    · exact ⟨_, by rw [hsplit]; exact ranked_perm fdiv _, hdrop⟩
    · intro y hy hyc hy10 hynot k hk
      have hmem : y ∈ ranked fdiv (qualifying reports c) :=
        (ranked_perm fdiv _).symm.subset (mem_qualifying.2 ⟨hy, hy10, hyc⟩)
      rw [← hsplit, List.mem_append] at hmem
      rcases hmem with hmem | hmem
      · exact absurd hmem hynot
      · exact hdrop y hmem k hk

/-- Claim C3, as the code has it: when the store returns no record twice, and
`A` comes before `B` in the order of the store, both of the same age category,
with more than 10 tests and the same quotient, and both are in the final
leaderboard of the category, then `B` precedes `A` there: a new record goes
before the first entry whose quotient is not strictly greater than its own,
hence before the entries of equal quotient. -/
theorem dailyTop5_ties_latest_first (reports : List DepartmentDailyReportPerAge)
    (c : Int) (top : List DepartmentDailyReportPerAge) (A B : DepartmentDailyReportPerAge)
    (hnodup : reports.Nodup)
    (htop : (StorageSQL.DailyTop5 fdiv (.ok reports)).1.AgeCategories c = some ⟨top⟩)
    (hAB : [A, B].Sublist reports)
    (hA : A.AgeCategory = c ∧ 10 < A.TestsTotal) (hB : B.AgeCategory = c ∧ 10 < B.TestsTotal)
    (hrate : ratioOf fdiv A = ratioOf fdiv B) (hAtop : A ∈ top) (hBtop : B ∈ top) :
    [B, A].Sublist top := by
  have h' : (reports.foldl (top5Step fdiv) ⟨fun _ => none⟩).AgeCategories c = some ⟨top⟩ := htop
  rw [foldl_top5Step_apply] at h'
  split_ifs at h' with hq
  injection h' with h'
  injection h' with h'
  subst h'
  have hsub : [A, B].Sublist (qualifying reports c) := by
    have := hAB.filter (fun r => decide (10 < r.TestsTotal ∧ r.AgeCategory = c))
    simpa [qualifying, hA.1, hA.2, hB.1, hB.2] using this
  have hrev := ranked_reverses fdiv A B _ (le_of_eq hrate) hsub
  have hnd : (ranked fdiv (qualifying reports c)).Nodup :=
    (ranked_perm fdiv _).nodup_iff.2 (hnodup.filter _)
  rw [← List.take_append_drop 5 (ranked fdiv (qualifying reports c))] at hrev hnd
  have hdisj := (List.nodup_append.1 hnd).2.2
  rcases List.sublist_append_iff.1 hrev with ⟨l₁, l₂, hl, h₁, h₂⟩
  rcases l₁ with _ | ⟨y, _ | ⟨z, t⟩⟩
  · rw [List.nil_append] at hl
    subst hl
    exact absurd (h₂.subset (List.mem_cons_self B _)) (fun h => hdisj hBtop h)
  · simp only [List.singleton_append, List.cons.injEq] at hl
    obtain ⟨rfl, rfl⟩ := hl
    exact absurd (h₂.subset (List.mem_cons_self A _)) (fun h => hdisj hAtop h)
  · have : t = [] ∧ l₂ = [] := by
      simp only [List.cons_append, List.cons.injEq] at hl
      obtain ⟨-, -, hl⟩ := hl
      exact List.append_eq_nil.1 hl.symm
    obtain ⟨rfl, rfl⟩ := this
    rw [List.append_nil] at hl
    rw [hl]
    exact h₁

end Top5Proofs

/-! ## Properties of the department resume -/

section ResumeProofs

variable {F : Type} [LinearOrder F] [Zero F] (fdiv : Int → Int → F)
  (parseTime : String → Except String Time)

theorem resumeLoop_eq_foldl (rows : List DayRow)
    (hparse : ∀ r ∈ rows, ∃ d, parseTime r.dayStr = .ok d) (st : ResumeState F) :
    resumeLoop fdiv parseTime (rows.map .ok) st =
      ((rows.foldl (resumeStep fdiv parseTime) st).resume, none) := by
  induction rows generalizing st with
  | nil => rfl
  | cons r rows ih =>
    obtain ⟨d, hd⟩ := hparse r (List.mem_cons_self r rows)
    have hrest : ∀ x ∈ rows, ∃ d, parseTime x.dayStr = .ok d :=
      fun x hx => hparse x (List.mem_cons_of_mem r hx)
    simp only [List.map_cons, List.foldl_cons, resumeLoop, hd, resumeStep, dayOf]
    exact ih hrest _

theorem resumeBody_small (st : ResumeState F) (day : Time) (t p : Int) (h : t ≤ 10) :
    resumeBody fdiv st day t p = st := by
  unfold resumeBody
  rw [if_pos h]

theorem resumeBody_maxTests (st : ResumeState F) (day : Time) (t p : Int) :
    (resumeBody fdiv st day t p).maxTests =
      if 10 < t ∧ st.maxTests < t then t else st.maxTests := by
  simp only [resumeBody]
  split_ifs <;> first | rfl | (exfalso; omega)

theorem resumeBody_dayWithMostTests (st : ResumeState F) (day : Time) (t p : Int) :
    (resumeBody fdiv st day t p).resume.DayWithMostTests =
      if 10 < t ∧ st.maxTests < t then day else st.resume.DayWithMostTests := by
  simp only [resumeBody]
  split_ifs <;> first | rfl | (exfalso; omega)

theorem foldl_resumeStep_filter (rows : List DayRow) (st : ResumeState F) :
    rows.foldl (resumeStep fdiv parseTime) st =
      (rows.filter (fun r => decide (10 < r.testsTotal))).foldl
        (resumeStep fdiv parseTime) st := by
  induction rows generalizing st with
  | nil => rfl
  | cons r rows ih =>
    by_cases h : 10 < r.testsTotal
    · simp only [List.foldl_cons, List.filter_cons, h, decide_True, if_true]
      exact ih _
    · simp only [List.foldl_cons, List.filter_cons, h, decide_False]
      rw [resumeStep, resumeBody_small fdiv st _ _ _ (not_lt.1 h)]
      exact ih _

/-- The invariant of the loop for `DayWithMostTests` and `maxTests`. -/
theorem foldl_resumeStep_mostTests (rows : List DayRow) :
    ((∀ x ∈ rows, x.testsTotal ≤ 10) ∧
        (rows.foldl (resumeStep fdiv parseTime) ResumeState.init).maxTests = 0) ∨
    ∃ pre r post, rows = pre ++ r :: post ∧ 10 < r.testsTotal ∧
      (∀ x ∈ rows, 10 < x.testsTotal → x.testsTotal ≤ r.testsTotal) ∧
      (∀ x ∈ pre, 10 < x.testsTotal → x.testsTotal < r.testsTotal) ∧
      (rows.foldl (resumeStep fdiv parseTime) ResumeState.init).maxTests = r.testsTotal ∧
      (rows.foldl (resumeStep fdiv parseTime) ResumeState.init).resume.DayWithMostTests =
        dayOf parseTime r := by
  induction rows using List.reverseRecOn with
  | nil => exact Or.inl ⟨by simp, rfl⟩
  | append_singleton l x ih =>
    rw [List.foldl_append, List.foldl_cons, List.foldl_nil]
    simp only [resumeStep, resumeBody_maxTests, resumeBody_dayWithMostTests]
    rcases ih with ⟨hsmall, hmax⟩ | ⟨pre, r, post, hl, hr, hall, hpre, hmax, hday⟩
    · by_cases hx : 10 < x.testsTotal
      · right
        refine ⟨l, x, [], rfl, hx, ?_, ?_, ?_, ?_⟩
        · intro y hy hy10
          rcases List.mem_append.1 hy with hy | hy
          · exact absurd hy10 (not_lt.2 (hsmall y hy))
          · rw [List.mem_singleton.1 hy]
        · intro y hy hy10
          exact absurd hy10 (not_lt.2 (hsmall y hy))
        · rw [hmax, if_pos ⟨hx, by omega⟩]
        · rw [hmax, if_pos ⟨hx, by omega⟩]
      · left
        refine ⟨?_, ?_⟩
        · intro y hy
          rcases List.mem_append.1 hy with hy | hy
          · exact hsmall y hy
          · rw [List.mem_singleton.1 hy]; exact not_lt.1 hx
        · rw [if_neg (fun hh => hx hh.1)]; exact hmax
    · right
      by_cases hx : 10 < x.testsTotal ∧ r.testsTotal < x.testsTotal
      · refine ⟨l, x, [], rfl, hx.1, ?_, ?_, ?_, ?_⟩
        · intro y hy hy10
          rcases List.mem_append.1 hy with hy | hy
          · exact le_of_lt (lt_of_le_of_lt (hall y hy hy10) hx.2)
          · rw [List.mem_singleton.1 hy]
        · intro y hy hy10
          exact lt_of_le_of_lt (hall y hy hy10) hx.2
        · rw [hmax, if_pos hx]
        · rw [hmax, if_pos hx]
      · refine ⟨pre, r, post ++ [x], by rw [hl]; simp, hr, ?_, hpre, ?_, ?_⟩
        · intro y hy hy10
          rcases List.mem_append.1 hy with hy | hy
          · exact hall y hy hy10
          · rw [List.mem_singleton.1 hy] at hy10 ⊢
            exact not_lt.1 (fun hlt => hx ⟨hy10, hlt⟩)
        · rw [hmax, if_neg hx]
        · rw [hmax, if_neg hx]; exact hday

/-- Claim C4: the resume computed from the rows is the one computed from the
rows of more than 10 tests alone, and when no row has more than 10 tests the
three dates are the zero date. -/
theorem departmentResume_ignores_small (rows : List DayRow)
    (hparse : ∀ r ∈ rows, ∃ d, parseTime r.dayStr = .ok d) :
    StorageSQL.DepartmentResume fdiv parseTime (scanned rows) =
      StorageSQL.DepartmentResume fdiv parseTime
        (scanned (rows.filter (fun r => decide (10 < r.testsTotal)))) ∧
    ((∀ r ∈ rows, r.testsTotal ≤ 10) →
      StorageSQL.DepartmentResume fdiv parseTime (scanned rows) =
        (⟨Time.zero, Time.zero, Time.zero⟩, none)) := by
  have hparse' : ∀ r ∈ rows.filter (fun r => decide (10 < r.testsTotal)),
      ∃ d, parseTime r.dayStr = .ok d := fun r hr => hparse r (List.mem_of_mem_filter hr)
  have h1 : StorageSQL.DepartmentResume fdiv parseTime (scanned rows) =
      ((rows.foldl (resumeStep fdiv parseTime) ResumeState.init).resume, none) :=
    resumeLoop_eq_foldl fdiv parseTime rows hparse _
  have h2 : StorageSQL.DepartmentResume fdiv parseTime
      (scanned (rows.filter (fun r => decide (10 < r.testsTotal)))) =
      (((rows.filter (fun r => decide (10 < r.testsTotal))).foldl
        (resumeStep fdiv parseTime) ResumeState.init).resume, none) :=
    resumeLoop_eq_foldl fdiv parseTime _ hparse' _
  refine ⟨?_, fun hsmall => ?_⟩
  · rw [h1, h2, ← foldl_resumeStep_filter]
  · have hnil : rows.filter (fun r => decide (10 < r.testsTotal)) = [] := by
      rw [List.filter_eq_nil_iff]
      intro r hr
      simpa using hsmall r hr
    rw [h1, foldl_resumeStep_filter, hnil]
    rfl

/-- Claim C6: when some row has more than 10 tests, `DayWithMostTests` is the
day of the first row, in reading order, among the rows of more than 10 tests
whose number of tests is the largest; a later row with as many tests does not
replace it. -/
theorem departmentResume_mostTests_first (rows : List DayRow)
    (hparse : ∀ r ∈ rows, ∃ d, parseTime r.dayStr = .ok d)
    (hsome : ∃ r ∈ rows, 10 < r.testsTotal) :
    ∃ pre r post, rows = pre ++ r :: post ∧ 10 < r.testsTotal ∧
      (∀ x ∈ rows, 10 < x.testsTotal → x.testsTotal ≤ r.testsTotal) ∧
      (∀ x ∈ pre, 10 < x.testsTotal → x.testsTotal < r.testsTotal) ∧
      (StorageSQL.DepartmentResume fdiv parseTime (scanned rows)).2 = none ∧
      parseTime r.dayStr =
        .ok (StorageSQL.DepartmentResume fdiv parseTime (scanned rows)).1.DayWithMostTests := by
  have h1 : StorageSQL.DepartmentResume fdiv parseTime (scanned rows) =
      ((rows.foldl (resumeStep fdiv parseTime) ResumeState.init).resume, none) :=
    resumeLoop_eq_foldl fdiv parseTime rows hparse _
  rcases foldl_resumeStep_mostTests fdiv parseTime rows with
    ⟨hsmall, -⟩ | ⟨pre, r, post, hl, hr, hall, hpre, -, hday⟩
  · obtain ⟨r, hr, hr10⟩ := hsome
    exact absurd hr10 (not_lt.2 (hsmall r hr))
  · refine ⟨pre, r, post, hl, hr, hall, hpre, by rw [h1], ?_⟩
    obtain ⟨d, hd⟩ := hparse r (by rw [hl]; simp)
    rw [h1]
    simp only [hday, dayOf, hd]

end ResumeProofs

/-! ## Properties of the national reports -/

section NationalProofs

variable {F : Type} [Zero F] (fdiv : Int → Int → F) (parseTime : String → Except String Time)

theorem nationalLoop_eq_map (rows : List DayRow)
    (hparse : ∀ r ∈ rows, ∃ d, parseTime r.dayStr = .ok d)
    (acc : List (NationalDailyReport F)) :
    nationalLoop fdiv parseTime (rows.map .ok) acc =
      (acc ++ rows.map (fun r => nationalReportOf fdiv (dayOf parseTime r) r), none) := by
  induction rows generalizing acc with
  | nil => simp [nationalLoop]
  | cons r rows ih =>
    obtain ⟨d, hd⟩ := hparse r (List.mem_cons_self r rows)
    have hrest : ∀ x ∈ rows, ∃ d, parseTime x.dayStr = .ok d :=
      fun x hx => hparse x (List.mem_cons_of_mem r hx)
    simp only [List.map_cons, nationalLoop, hd, dayOf]
    rw [ih hrest]
    simp [dayOf]

/-- Claim C7: the report of each row read by `NationalReports` carries the day
and the two sums of the row; its `Ratio` is 0 when `tests_total` is 0 and the
quotient of `tests_positives` by `tests_total` when `tests_total` is
positive.  The call returns no error. -/
theorem nationalReports_rows (rows : List DayRow)
    (hparse : ∀ r ∈ rows, ∃ d, parseTime r.dayStr = .ok d) :
    ∃ reports : List (NationalDailyReport F),
      StorageSQL.NationalReports fdiv parseTime (scanned rows) = (reports, none) ∧
      List.Forall₂ (fun (row : DayRow) (report : NationalDailyReport F) =>
        parseTime row.dayStr = .ok report.Day ∧
        report.TestsTotal = row.testsTotal ∧
        report.TestsPositives = row.testsPositives ∧
        (row.testsTotal = 0 → report.Ratio = 0) ∧
        (0 < row.testsTotal → report.Ratio = fdiv row.testsPositives row.testsTotal))
        rows reports := by
  refine ⟨rows.map (fun r => nationalReportOf fdiv (dayOf parseTime r) r), ?_, ?_⟩
  · have := nationalLoop_eq_map fdiv parseTime rows hparse []
    simpa [StorageSQL.NationalReports, scanned] using this
  · rw [List.forall₂_map_right_iff, List.forall₂_same]
    intro r hr
    obtain ⟨d, hd⟩ := hparse r hr
    refine ⟨by simp [nationalReportOf, dayOf, hd], rfl, rfl, ?_, ?_⟩
    · intro h0
      simp [nationalReportOf, h0]
    · intro hpos
      have hne : r.testsTotal ≠ 0 := ne_of_gt hpos
      simp [nationalReportOf, hne]

/-- Claim C8, as the code has it: the reports come in the order in which the
store returned the rows, whatever that order was; the returned list is
in ascending order of day exactly when the rows of the store are. -/
theorem nationalReports_store_order (rows : List DayRow)
    (hparse : ∀ r ∈ rows, ∃ d, parseTime r.dayStr = .ok d) :
    ∃ reports : List (NationalDailyReport F),
      StorageSQL.NationalReports fdiv parseTime (scanned rows) = (reports, none) ∧
      reports.map (fun report => report.Day) = rows.map (dayOf parseTime) ∧
      (ascendingDays (reports.map (fun report => report.Day)) ↔
        ascendingDays (rows.map (dayOf parseTime))) := by
  refine ⟨rows.map (fun r => nationalReportOf fdiv (dayOf parseTime r) r), ?_, ?_⟩
  · have := nationalLoop_eq_map fdiv parseTime rows hparse []
    simpa [StorageSQL.NationalReports, scanned] using this
  · have hmap : (rows.map (fun r => nationalReportOf fdiv (dayOf parseTime r) r)).map
        (fun report => report.Day) = rows.map (dayOf parseTime) := by
      rw [List.map_map]
      rfl
    exact ⟨hmap, by rw [hmap]⟩

end NationalProofs

/-! ### Sample evaluations of the resume and of the national reports -/

theorem sampleParseTime_13 : sampleParseTime "2020-05-13" = .ok ⟨737557⟩ := rfl

theorem sampleParseTime_14 : sampleParseTime "2020-05-14" = .ok ⟨737558⟩ := rfl

/-- Witness of `departmentResume_ignores_small`: the example of the
specification, tests 5, 20, 50 and positives 1, 5, 40 on three days. -/
theorem departmentResume_ignores_small_witness :
    StorageSQL.DepartmentResume ratQuot sampleParseTime
        (scanned [⟨"2020-05-13", 5, 1⟩, ⟨"2020-05-14", 20, 5⟩, ⟨"2020-05-15", 50, 40⟩]) =
      StorageSQL.DepartmentResume ratQuot sampleParseTime
        (scanned [⟨"2020-05-14", 20, 5⟩, ⟨"2020-05-15", 50, 40⟩]) :=
  (departmentResume_ignores_small ratQuot sampleParseTime
    [⟨"2020-05-13", 5, 1⟩, ⟨"2020-05-14", 20, 5⟩, ⟨"2020-05-15", 50, 40⟩]
    (by
      intro r hr
      simp only [List.mem_cons, List.mem_singleton, List.not_mem_nil, or_false] at hr
      rcases hr with rfl | rfl | rfl <;> exact ⟨_, rfl⟩)).1

/-- Claim C5 at the failing input: one day with 20 tests and no positive test.
The day qualifies and is the day of the largest number of positives among the
qualifying days, yet `DayWithMostPositives` is the zero date: `maxPositives`
starts at 0 and the comparison is strict. -/
theorem departmentResume_mostPositives_unset :
    sampleParseTime "2020-05-13" = .ok ⟨737557⟩ ∧
    StorageSQL.DepartmentResume ratQuot sampleParseTime (scanned [⟨"2020-05-13", 20, 0⟩]) =
      (⟨⟨737557⟩, Time.zero, Time.zero⟩, none) := by
  refine ⟨rfl, ?_⟩
  simp [StorageSQL.DepartmentResume, scanned, resumeLoop, resumeBody, ResumeState.init, ratQuot,
    Time.zero, sampleParseTime_13]

/-- Witness of `departmentResume_mostTests_first`: two days with 50 tests, the
first of them wins. -/
theorem departmentResume_mostTests_first_witness :
    ∃ pre r post,
      [(⟨"2020-05-13", 5, 1⟩ : DayRow), ⟨"2020-05-14", 50, 5⟩, ⟨"2020-05-15", 50, 40⟩] =
        pre ++ r :: post ∧ 10 < r.testsTotal ∧
      (∀ x ∈ [(⟨"2020-05-13", 5, 1⟩ : DayRow), ⟨"2020-05-14", 50, 5⟩, ⟨"2020-05-15", 50, 40⟩],
        10 < x.testsTotal → x.testsTotal ≤ r.testsTotal) ∧
      (∀ x ∈ pre, 10 < x.testsTotal → x.testsTotal < r.testsTotal) ∧
      (StorageSQL.DepartmentResume ratQuot sampleParseTime (scanned
        [⟨"2020-05-13", 5, 1⟩, ⟨"2020-05-14", 50, 5⟩, ⟨"2020-05-15", 50, 40⟩])).2 = none ∧
      sampleParseTime r.dayStr =
        .ok (StorageSQL.DepartmentResume ratQuot sampleParseTime (scanned
          [⟨"2020-05-13", 5, 1⟩, ⟨"2020-05-14", 50, 5⟩,
            ⟨"2020-05-15", 50, 40⟩])).1.DayWithMostTests :=
  departmentResume_mostTests_first ratQuot sampleParseTime
    [⟨"2020-05-13", 5, 1⟩, ⟨"2020-05-14", 50, 5⟩, ⟨"2020-05-15", 50, 40⟩]
    (by
      intro r hr
      simp only [List.mem_cons, List.mem_singleton, List.not_mem_nil, or_false] at hr
      rcases hr with rfl | rfl | rfl <;> exact ⟨_, rfl⟩)
    ⟨⟨"2020-05-14", 50, 5⟩, by simp, by decide⟩

/-- Witness of `nationalReports_rows`: a day without any test and a day with
tests. -/
theorem nationalReports_rows_witness :
    ∃ reports : List (NationalDailyReport ℚ),
      StorageSQL.NationalReports ratQuot sampleParseTime
        (scanned [⟨"2020-05-13", 0, 0⟩, ⟨"2020-05-14", 20, 5⟩]) = (reports, none) ∧
      List.Forall₂ (fun (row : DayRow) (report : NationalDailyReport ℚ) =>
        sampleParseTime row.dayStr = .ok report.Day ∧
        report.TestsTotal = row.testsTotal ∧
        report.TestsPositives = row.testsPositives ∧
        (row.testsTotal = 0 → report.Ratio = 0) ∧
        (0 < row.testsTotal → report.Ratio = ratQuot row.testsPositives row.testsTotal))
        [⟨"2020-05-13", 0, 0⟩, ⟨"2020-05-14", 20, 5⟩] reports :=
  nationalReports_rows ratQuot sampleParseTime [⟨"2020-05-13", 0, 0⟩, ⟨"2020-05-14", 20, 5⟩]
    (by
      intro r hr
      simp only [List.mem_cons, List.mem_singleton, List.not_mem_nil, or_false] at hr
      rcases hr with rfl | rfl <;> exact ⟨_, rfl⟩)

/-- Counterexample to claim C8 as stated: the store returns May 14 before
May 13, and so does `NationalReports`; the returned days are not ascending. -/
theorem nationalReports_order_counterexample :
    (StorageSQL.NationalReports ratQuot sampleParseTime
        (scanned [⟨"2020-05-14", 20, 5⟩, ⟨"2020-05-13", 30, 6⟩])).1.map
      (fun report => report.Day) = [⟨737558⟩, ⟨737557⟩] ∧
    (StorageSQL.NationalReports ratQuot sampleParseTime
        (scanned [⟨"2020-05-14", 20, 5⟩, ⟨"2020-05-13", 30, 6⟩])).2 = none ∧
    ¬ ascendingDays [⟨737558⟩, ⟨737557⟩] := by
  refine ⟨?_, ?_, ?_⟩
  · simp [StorageSQL.NationalReports, scanned, nationalLoop, nationalReportOf,
      sampleParseTime_13, sampleParseTime_14]
  · simp [StorageSQL.NationalReports, scanned, nationalLoop, nationalReportOf,
      sampleParseTime_13, sampleParseTime_14]
  · simp [ascendingDays]

/-- Witness of `nationalReports_store_order` on the same rows. -/
theorem nationalReports_store_order_witness :
    ∃ reports : List (NationalDailyReport ℚ),
      StorageSQL.NationalReports ratQuot sampleParseTime
        (scanned [⟨"2020-05-14", 20, 5⟩, ⟨"2020-05-13", 30, 6⟩]) = (reports, none) ∧
      reports.map (fun report => report.Day) =
        [(⟨"2020-05-14", 20, 5⟩ : DayRow), ⟨"2020-05-13", 30, 6⟩].map (dayOf sampleParseTime) ∧
      (ascendingDays (reports.map (fun report => report.Day)) ↔
        ascendingDays ([(⟨"2020-05-14", 20, 5⟩ : DayRow), ⟨"2020-05-13", 30, 6⟩].map
          (dayOf sampleParseTime))) :=
  nationalReports_store_order ratQuot sampleParseTime
    [⟨"2020-05-14", 20, 5⟩, ⟨"2020-05-13", 30, 6⟩]
    (by
      intro r hr
      simp only [List.mem_cons, List.mem_singleton, List.not_mem_nil, or_false] at hr
      rcases hr with rfl | rfl <;> exact ⟨_, rfl⟩)

/-! ### Sample evaluations of the leaderboards -/

/-- Witness of `dailyTop5_length_sorted`: the two records of the example of the
specification, age category 9. -/
theorem dailyTop5_length_sorted_witness :
    (StorageSQL.DailyTop5 ratQuot
        (.ok [mkReport "01" 9 100 50, mkReport "02" 9 50 40])).1.AgeCategories 9 =
      some ⟨[mkReport "02" 9 50 40, mkReport "01" 9 100 50]⟩ ∧
    ([mkReport "02" 9 50 40, mkReport "01" 9 100 50].length ≤ 5 ∧
      [mkReport "02" 9 50 40, mkReport "01" 9 100 50].Chain'
        (fun earlier later => ratioOf ratQuot earlier ≥ ratioOf ratQuot later)) :=
  have h : (StorageSQL.DailyTop5 ratQuot
        (.ok [mkReport "01" 9 100 50, mkReport "02" 9 50 40])).1.AgeCategories 9 =
      some ⟨[mkReport "02" 9 50 40, mkReport "01" 9 100 50]⟩ := by
    simp [StorageSQL.DailyTop5, top5Step, mkReport, insertTop5, ratQuot]
    norm_num
  ⟨h, dailyTop5_length_sorted ratQuot _ 9 ⟨[mkReport "02" 9 50 40, mkReport "01" 9 100 50]⟩ h⟩

/-- Witness of `dailyTop5_is_top5`: seven records of age category 9, one of
them with 10 tests; five are kept. -/
theorem dailyTop5_is_top5_witness :
    ∃ top : List DepartmentDailyReportPerAge,
      (StorageSQL.DailyTop5 ratQuot (.ok [mkReport "01" 9 100 50, mkReport "02" 9 50 40,
        mkReport "03" 9 10 10, mkReport "04" 9 100 10, mkReport "05" 9 100 60,
        mkReport "06" 9 100 20, mkReport "07" 9 100 30])).1.AgeCategories 9 = some ⟨top⟩ ∧
      top.length = 5 :=
  have h := (dailyTop5_is_top5 ratQuot [mkReport "01" 9 100 50, mkReport "02" 9 50 40,
        mkReport "03" 9 10 10, mkReport "04" 9 100 10, mkReport "05" 9 100 60,
        mkReport "06" 9 100 20, mkReport "07" 9 100 30] 9).2
      ⟨mkReport "01" 9 100 50, by simp, rfl, by decide⟩
  h.imp (fun _ hh => ⟨hh.1, hh.2.1.trans (by decide)⟩)

/-- Counterexample to claim C3 as stated: `A` and `B` have the same quotient
1/2, `A` arrives first, both are kept, and `B` precedes `A` in the leaderboard,
so `A` does not precede `B`. -/
theorem dailyTop5_tie_counterexample :
    ratioOf ratQuot (mkReport "01" 9 100 50) = ratioOf ratQuot (mkReport "02" 9 100 50) ∧
    (StorageSQL.DailyTop5 ratQuot
        (.ok [mkReport "01" 9 100 50, mkReport "02" 9 100 50])).1.AgeCategories 9 =
      some ⟨[mkReport "02" 9 100 50, mkReport "01" 9 100 50]⟩ ∧
    ¬ [mkReport "01" 9 100 50, mkReport "02" 9 100 50].Sublist
        [mkReport "02" 9 100 50, mkReport "01" 9 100 50] := by
  refine ⟨rfl, ?_, by decide⟩
  simp [StorageSQL.DailyTop5, top5Step, mkReport, insertTop5, ratQuot]

/-- Witness of `dailyTop5_ties_latest_first` on the same two records. -/
theorem dailyTop5_ties_latest_first_witness :
    [mkReport "02" 9 100 50, mkReport "01" 9 100 50].Sublist
      [mkReport "02" 9 100 50, mkReport "01" 9 100 50] :=
  dailyTop5_ties_latest_first ratQuot [mkReport "01" 9 100 50, mkReport "02" 9 100 50] 9
    [mkReport "02" 9 100 50, mkReport "01" 9 100 50]
    (mkReport "01" 9 100 50) (mkReport "02" 9 100 50)
    (by decide)
    (by simp [StorageSQL.DailyTop5, top5Step, mkReport, insertTop5, ratQuot])
    (List.Sublist.refl _) ⟨rfl, by decide⟩ ⟨rfl, by decide⟩ rfl (by simp) (by simp)

/-! ## Properties of the ingestion -/

section SourceProofs

variable {Fl : Type} (parseTime : String → Except String Time)
  (atoi : String → Except String Int) (parseFloat : String → Except String Fl)
  (round : Fl → Int)

theorem isCSVHeaderValid_iff (headers : List String) :
    isCSVHeaderValid headers = true ↔ headers = expectedCSVHeaders := by
  rcases headers with _ | ⟨a, _ | ⟨b, _ | ⟨c, _ | ⟨d, _ | ⟨e, _ | ⟨f, _ | ⟨g, t⟩⟩⟩⟩⟩⟩⟩ <;>
    simp [isCSVHeaderValid, headersMatchFrom, expectedCSVHeaders]

theorem parseCSVRow_isSome (row : List String) (h : row.length = 6) :
    ∃ res, parseCSVRow parseTime atoi parseFloat round row = some res := by
  rcases row with _ | ⟨a, _ | ⟨b, _ | ⟨c, _ | ⟨d, _ | ⟨e, _ | ⟨f, _ | ⟨g, t⟩⟩⟩⟩⟩⟩⟩ <;>
    simp at h
  simp only [parseCSVRow, List.getElem?_cons_zero, List.getElem?_cons_succ, Option.pure_def,
    Option.bind_eq_bind, Option.some_bind]
  cases parseTime b <;> simp only []
  · exact ⟨_, rfl⟩
  cases atoi e <;> simp only []
  · exact ⟨_, rfl⟩
  cases atoi d <;> simp only []
  · exact ⟨_, rfl⟩
  cases atoi c <;> simp only []
  · exact ⟨_, rfl⟩
  cases atoi f <;> simp only []
  · cases parseFloat f <;> exact ⟨_, rfl⟩
  · exact ⟨_, rfl⟩

theorem getLoop_eq (rows : List (List String)) (hfields : ∀ row ∈ rows, row.length = 6)
    (acc : List DepartmentDailyReportPerAge) :
    getLoop parseTime atoi parseFloat round rows acc =
      some (acc ++ parsedRows parseTime atoi parseFloat round rows) := by
  induction rows generalizing acc with
  | nil => simp [getLoop, parsedRows]
  | cons row rows ih =>
    have hrest : ∀ r ∈ rows, r.length = 6 := fun r hr => hfields r (List.mem_cons_of_mem row hr)
    obtain ⟨res, hres⟩ := parseCSVRow_isSome parseTime atoi parseFloat round row
      (hfields row (List.mem_cons_self row rows))
    unfold getLoop
    rw [hres]
    cases res with
    | error e =>
      simp only []
      rw [ih hrest]
      simp [parsedRows, hres]
    | ok report =>
      simp only []
      rw [ih hrest]
      simp [parsedRows, hres]

/-- Claim C9: on a first row equal to the expected header, `Get` returns no
error and exactly the results of `parseCSVRow` on the data rows on which it
succeeds, in input order, a failing row being skipped and the rows after it
still processed (the data rows are as the CSV reader delivers them: each has
as many fields as the first row); on any other first row `Get` returns an
error and no record. -/
theorem get_skips_failing_rows (header : List String) (rows : List (List String)) :
    (header = expectedCSVHeaders → (∀ row ∈ rows, row.length = header.length) →
      DataGouvSource.Get parseTime atoi parseFloat round (.data (header :: rows)) =
        some (parsedRows parseTime atoi parseFloat round rows, none)) ∧
    (header ≠ expectedCSVHeaders →
      DataGouvSource.Get parseTime atoi parseFloat round (.data (header :: rows)) =
        some ([], some "invalid csv headers - this csv format is not supported")) := by
  constructor
  · intro hh hfields
    have hvalid : isCSVHeaderValid header = true := (isCSVHeaderValid_iff header).2 hh
    have h6 : ∀ row ∈ rows, row.length = 6 := by
      intro row hrow
      rw [hfields row hrow, hh]
      rfl
    simp only [DataGouvSource.Get, hvalid, Bool.not_true, Bool.false_eq_true, if_false]
    rw [getLoop_eq parseTime atoi parseFloat round rows h6 []]
    rfl
  · intro hh
    have hvalid : isCSVHeaderValid header = false := by
      rw [← Bool.not_eq_true, isCSVHeaderValid_iff]
      exact hh
    simp [DataGouvSource.Get, hvalid]

end SourceProofs

/-- Witness of `get_skips_failing_rows`: three data rows, the second of which
has a day that does not parse; the population of the third is a decimal.  With
a first row that lacks the last header the call fails. -/
theorem get_skips_failing_rows_witness :
    DataGouvSource.Get sampleParseTime sampleAtoi sampleParseFloat sampleRound
      (.data [["dep", "jour", "P", "T", "cl_age90", "pop"],
        ["01", "2020-05-13", "34", "2141", "9", "100000"],
        ["02", "13/05/2020", "1", "2", "9", "5"],
        ["2A", "2020-05-14", "0", "12", "19", "123.7"]]) =
      some ([⟨"01", ⟨737557⟩, 9, 2141, 34, 100000⟩, ⟨"2A", ⟨737558⟩, 19, 12, 0, 124⟩], none) ∧
    DataGouvSource.Get sampleParseTime sampleAtoi sampleParseFloat sampleRound
      (.data [["dep", "jour", "P", "T", "cl_age90"], ["01", "2020-05-13", "34", "2141", "9"]]) =
      some ([], some "invalid csv headers - this csv format is not supported") :=
  ⟨((get_skips_failing_rows sampleParseTime sampleAtoi sampleParseFloat sampleRound
      ["dep", "jour", "P", "T", "cl_age90", "pop"]
      [["01", "2020-05-13", "34", "2141", "9", "100000"],
        ["02", "13/05/2020", "1", "2", "9", "5"],
        ["2A", "2020-05-14", "0", "12", "19", "123.7"]]).1 rfl (by decide)).trans rfl,
    (get_skips_failing_rows sampleParseTime sampleAtoi sampleParseFloat sampleRound
      ["dep", "jour", "P", "T", "cl_age90"] [["01", "2020-05-13", "34", "2141", "9"]]).2
      (by decide)⟩

/-! ## Properties of the handlers -/

section HttpProofs

variable {F : Type} (parseTime : String → Except String Time)

theorem nationalReportsHandler_valid (h : AnalyticsHandler F) (query : Query)
    (f t : String) (fromT toT : Time)
    (hf : query "from" = some [f]) (hfp : parseTime f = .ok fromT)
    (ht : query "to" = some [t]) (htp : parseTime t = .ok toT) :
    h.NationalReportsHandler parseTime query =
      ⟨[.NationalReports fromT toT],
        [storeResponse .nationalReports (h.storage.NationalReports fromT toT)]⟩ := by
  unfold AnalyticsHandler.NationalReportsHandler
  simp only [hf, hfp, ht, htp]
  rcases h.storage.NationalReports fromT toT with ⟨r, _ | e⟩ <;> rfl

theorem nationalReportsHandler_invalid (h : AnalyticsHandler F) (query : Query)
    (hbad : badDate parseTime query "from" ∨ badDate parseTime query "to") :
    rejected (h.NationalReportsHandler parseTime query) := by
  unfold AnalyticsHandler.NationalReportsHandler
  rcases hq : query "from" with _ | ⟨_ | ⟨f, _ | ⟨f', fs⟩⟩⟩
  · exact ⟨rfl, _, rfl⟩
  · exact ⟨rfl, _, rfl⟩
  · simp only []
    rcases hp : parseTime f with e | fromT
    · exact ⟨rfl, _, rfl⟩
    · simp only []
      rcases hq' : query "to" with _ | ⟨_ | ⟨t, _ | ⟨t', ts⟩⟩⟩
      · exact ⟨rfl, _, rfl⟩
      · exact ⟨rfl, _, rfl⟩
      · simp only []
        rcases hp' : parseTime t with e | toT
        · exact ⟨rfl, _, rfl⟩
        · exfalso
          rcases hbad with (hb | ⟨v, e, hv, he⟩) | (hb | ⟨v, e, hv, he⟩)
          · rcases hb with hb | ⟨vs, hvs, hlen⟩
            · rw [hq] at hb; cases hb
            · rw [hq] at hvs; injection hvs with hvs; subst hvs; exact hlen rfl
          · rw [hq] at hv; injection hv with hv; injection hv with hv
            subst hv; rw [hp] at he; cases he
          · rcases hb with hb | ⟨vs, hvs, hlen⟩
            · rw [hq'] at hb; cases hb
            · rw [hq'] at hvs; injection hvs with hvs; subst hvs; exact hlen rfl
          · rw [hq'] at hv; injection hv with hv; injection hv with hv
            subst hv; rw [hp'] at he; cases he
      · exact ⟨rfl, _, rfl⟩
  · exact ⟨rfl, _, rfl⟩

theorem dailyTop5Handler_valid (h : AnalyticsHandler F) (query : Query)
    (d : String) (day : Time) (hd : query "day" = some [d]) (hdp : parseTime d = .ok day) :
    h.DailyTop5Handler parseTime query =
      ⟨[.DailyTop5 day], [storeResponse .dailyTop5 (h.storage.DailyTop5 day)]⟩ := by
  unfold AnalyticsHandler.DailyTop5Handler
  simp only [hd, hdp]
  rcases h.storage.DailyTop5 day with ⟨r, _ | e⟩ <;> rfl

theorem dailyTop5Handler_invalid (h : AnalyticsHandler F) (query : Query)
    (hbad : badDate parseTime query "day") :
    rejected (h.DailyTop5Handler parseTime query) := by
  unfold AnalyticsHandler.DailyTop5Handler
  rcases hq : query "day" with _ | ⟨_ | ⟨d, _ | ⟨d', ds⟩⟩⟩
  · exact ⟨rfl, _, rfl⟩
  · exact ⟨rfl, _, rfl⟩
  · simp only []
    rcases hp : parseTime d with e | day
    · exact ⟨rfl, _, rfl⟩
    · exfalso
      rcases hbad with hb | ⟨v, e, hv, he⟩
      · rcases hb with hb | ⟨vs, hvs, hlen⟩
        · rw [hq] at hb; cases hb
        · rw [hq] at hvs; injection hvs with hvs; subst hvs; exact hlen rfl
      · rw [hq] at hv; injection hv with hv; injection hv with hv
        subst hv; rw [hp] at he; cases he
  · exact ⟨rfl, _, rfl⟩

theorem departmentResumeHandler_valid (h : AnalyticsHandler F) (query : Query)
    (d : String) (hd : query "department" = some [d]) :
    h.DepartmentResumeHandler query =
      ⟨[.DepartmentResume d],
        [storeResponse .departmentResume (h.storage.DepartmentResume d)]⟩ := by
  unfold AnalyticsHandler.DepartmentResumeHandler
  simp only [hd]
  rcases h.storage.DepartmentResume d with ⟨r, _ | e⟩ <;> rfl

theorem departmentResumeHandler_invalid (h : AnalyticsHandler F) (query : Query)
    (hbad : badParam query "department") :
    rejected (h.DepartmentResumeHandler query) := by
  unfold AnalyticsHandler.DepartmentResumeHandler
  rcases hq : query "department" with _ | ⟨_ | ⟨d, _ | ⟨d', ds⟩⟩⟩
  · exact ⟨rfl, _, rfl⟩
  · exact ⟨rfl, _, rfl⟩
  · exfalso
    rcases hbad with hb | ⟨vs, hvs, hlen⟩
    · rw [hq] at hb; cases hb
    · rw [hq] at hvs; injection hvs with hvs; subst hvs; exact hlen rfl
  · exact ⟨rfl, _, rfl⟩

/-- Claim C10: in `NationalReportsHandler`, `DailyTop5Handler` and
`DepartmentResumeHandler`, a request in which a required parameter is absent,
has several values or, for a date, does not parse, gets one response of status
400 with an error body and the storage is not called; a request in which every
required parameter has one value that parses makes exactly one call to the
storage, with the parsed values, and the one response written is made of what
the storage `h.storage` returns at those very values: its error with status
500, or its result with status 200. -/
theorem handlers_validate_parameters (h : AnalyticsHandler F) (query : Query) :
    ((badDate parseTime query "from" ∨ badDate parseTime query "to" →
        rejected (h.NationalReportsHandler parseTime query)) ∧
      (∀ f t fromT toT, query "from" = some [f] → parseTime f = .ok fromT →
        query "to" = some [t] → parseTime t = .ok toT →
        h.NationalReportsHandler parseTime query =
          ⟨[.NationalReports fromT toT],
            [storeResponse .nationalReports (h.storage.NationalReports fromT toT)]⟩)) ∧
    ((badDate parseTime query "day" → rejected (h.DailyTop5Handler parseTime query)) ∧
      (∀ d day, query "day" = some [d] → parseTime d = .ok day →
        h.DailyTop5Handler parseTime query =
          ⟨[.DailyTop5 day], [storeResponse .dailyTop5 (h.storage.DailyTop5 day)]⟩)) ∧
    ((badParam query "department" → rejected (h.DepartmentResumeHandler query)) ∧
      (∀ d, query "department" = some [d] →
        h.DepartmentResumeHandler query =
          ⟨[.DepartmentResume d],
            [storeResponse .departmentResume (h.storage.DepartmentResume d)]⟩)) :=
  ⟨⟨nationalReportsHandler_invalid parseTime h query,
      fun f t fromT toT => nationalReportsHandler_valid parseTime h query f t fromT toT⟩,
    ⟨dailyTop5Handler_invalid parseTime h query,
      fun d day => dailyTop5Handler_valid parseTime h query d day⟩,
    ⟨departmentResumeHandler_invalid h query,
      fun d => departmentResumeHandler_valid h query d⟩⟩

end HttpProofs

/-- Witness of `handlers_validate_parameters`: a request with `from` and `to`
and nothing else is served by `NationalReportsHandler` with one call to the
storage at the two parsed days and the answer of the storage as the body, and
is rejected by `DailyTop5Handler` and `DepartmentResumeHandler`. -/
theorem handlers_validate_parameters_witness :
    AnalyticsHandler.NationalReportsHandler sampleParseTime ⟨emptyStorage⟩
        (queryOf [("from", ["2020-05-13"]), ("to", ["2020-05-14"])]) =
      ⟨[.NationalReports ⟨737557⟩ ⟨737558⟩],
        [storeResponse .nationalReports (emptyStorage.NationalReports ⟨737557⟩ ⟨737558⟩)]⟩ ∧
    storeResponse .nationalReports (emptyStorage.NationalReports ⟨737557⟩ ⟨737558⟩) =
      ⟨StatusOK, .nationalReports []⟩ ∧
    rejected (AnalyticsHandler.DailyTop5Handler sampleParseTime ⟨emptyStorage⟩
      (queryOf [("from", ["2020-05-13"]), ("to", ["2020-05-14"])])) ∧
    rejected (AnalyticsHandler.DepartmentResumeHandler ⟨emptyStorage⟩
      (queryOf [("from", ["2020-05-13"]), ("to", ["2020-05-14"])])) :=
  have hw := handlers_validate_parameters sampleParseTime ⟨emptyStorage⟩
    (queryOf [("from", ["2020-05-13"]), ("to", ["2020-05-14"])])
  ⟨hw.1.2 "2020-05-13" "2020-05-14" ⟨737557⟩ ⟨737558⟩ rfl rfl rfl rfl, rfl,
    hw.2.1.1 (Or.inl (Or.inl rfl)), hw.2.2.1 (Or.inl rfl)⟩

/-! ## Failures of the storage -/

section StoreFailureProofs

variable {F : Type} (parseTime : String → Except String Time)

theorem departmentListHandler_store_error (h : AnalyticsHandler F) (query : Query)
    (l : List String) (e : String) (herr : h.storage.Departments = (l, some e)) :
    failedWith (h.DepartmentListHandler query) e := by
  unfold AnalyticsHandler.DepartmentListHandler
  simp only [herr]
  rfl

theorem ageCategoryListHandler_store_error (h : AnalyticsHandler F) (query : Query)
    (l : List Int) (e : String) (herr : h.storage.AgeCategories = (l, some e)) :
    failedWith (h.AgeCategoryListHandler query) e := by
  unfold AnalyticsHandler.AgeCategoryListHandler
  simp only [herr]
  rfl

theorem dataHandler_store_error (h : AnalyticsHandler F) (query : Query)
    (f t d : String) (ds : List String) (fromT toT : Time)
    (data : List DepartmentDailyReportPerAge) (e : String)
    (hf : query "from" = some [f]) (hfp : parseTime f = .ok fromT)
    (ht : query "to" = some [t]) (htp : parseTime t = .ok toT)
    (hd : query "departments" = some (d :: ds))
    (herr : h.storage.Reports fromT toT (d :: ds) = (data, some e)) :
    failedWith (h.DataHandler parseTime query) e := by
  unfold AnalyticsHandler.DataHandler
  simp only [hf, hfp, ht, htp, hd, herr]
  rfl

theorem nationalReportsHandler_store_error (h : AnalyticsHandler F) (query : Query)
    (f t : String) (fromT toT : Time) (reports : List (NationalDailyReport F)) (e : String)
    (hf : query "from" = some [f]) (hfp : parseTime f = .ok fromT)
    (ht : query "to" = some [t]) (htp : parseTime t = .ok toT)
    (herr : h.storage.NationalReports fromT toT = (reports, some e)) :
    failedWith (h.NationalReportsHandler parseTime query) e := by
  unfold AnalyticsHandler.NationalReportsHandler
  simp only [hf, hfp, ht, htp, herr]
  rfl

theorem departmentResumeHandler_store_error (h : AnalyticsHandler F) (query : Query)
    (d : String) (resume : DepartmentResume) (e : String)
    (hd : query "department" = some [d])
    (herr : h.storage.DepartmentResume d = (resume, some e)) :
    failedWith (h.DepartmentResumeHandler query) e := by
  unfold AnalyticsHandler.DepartmentResumeHandler
  simp only [hd, herr]
  rfl

theorem dailyTop5Handler_store_error (h : AnalyticsHandler F) (query : Query)
    (d : String) (day : Time) (top5 : DailyTop5) (e : String)
    (hd : query "day" = some [d]) (hdp : parseTime d = .ok day)
    (herr : h.storage.DailyTop5 day = (top5, some e)) :
    failedWith (h.DailyTop5Handler parseTime query) e := by
  unfold AnalyticsHandler.DailyTop5Handler
  simp only [hd, hdp, herr]
  rfl

/-- What `DaysLimitHandler` does when the storage fails: it makes its one call,
writes the response of status 500 with the error object, and then writes the
response of status 200 with the two dates that came with the error. -/
theorem daysLimitHandler_store_error (h : AnalyticsHandler F) (query : Query)
    (fromT toT : Time) (e : String) (herr : h.storage.DaysLimit = (fromT, toT, some e)) :
    h.DaysLimitHandler query =
      ⟨[.DaysLimit], [⟨StatusInternalServerError, .error ⟨e⟩⟩,
        ⟨StatusOK, .daysLimit fromT toT⟩]⟩ := by
  unfold AnalyticsHandler.DaysLimitHandler
  simp only [herr]
  rfl

end StoreFailureProofs

/-- The six handlers other than `DaysLimitHandler`, on the storage that fails
and a request with every parameter: each writes the one response of status 500
with the error object. -/
theorem other_handlers_store_error_sample :
    failedWith (AnalyticsHandler.DepartmentListHandler ⟨failingStorage⟩ (queryOf []))
      "cannot retrieve departments: connection refused" ∧
    failedWith (AnalyticsHandler.AgeCategoryListHandler ⟨failingStorage⟩ (queryOf []))
      "cannot retrieve age categories: connection refused" ∧
    failedWith (AnalyticsHandler.DataHandler sampleParseTime ⟨failingStorage⟩
      (queryOf [("from", ["2020-05-13"]), ("to", ["2020-05-14"]), ("departments", ["01"])]))
      "cannot query reports: connection refused" ∧
    failedWith (AnalyticsHandler.NationalReportsHandler sampleParseTime ⟨failingStorage⟩
      (queryOf [("from", ["2020-05-13"]), ("to", ["2020-05-14"])]))
      "cannot query national reports: connection refused" ∧
    failedWith (AnalyticsHandler.DepartmentResumeHandler ⟨failingStorage⟩
      (queryOf [("department", ["01"])]))
      "cannot query department resume: connection refused" ∧
    failedWith (AnalyticsHandler.DailyTop5Handler sampleParseTime ⟨failingStorage⟩
      (queryOf [("day", ["2020-05-13"])]))
      "cannot query reports: connection refused" :=
  ⟨departmentListHandler_store_error ⟨failingStorage⟩ _ [] _ rfl,
    ageCategoryListHandler_store_error ⟨failingStorage⟩ _ [] _ rfl,
    dataHandler_store_error sampleParseTime ⟨failingStorage⟩ _ "2020-05-13" "2020-05-14" "01" []
      ⟨737557⟩ ⟨737558⟩ [] _ rfl rfl rfl rfl rfl rfl,
    nationalReportsHandler_store_error sampleParseTime ⟨failingStorage⟩ _ "2020-05-13"
      "2020-05-14" ⟨737557⟩ ⟨737558⟩ [] _ rfl rfl rfl rfl rfl,
    departmentResumeHandler_store_error ⟨failingStorage⟩ _ "01"
      ⟨Time.zero, Time.zero, Time.zero⟩ _ rfl rfl,
    dailyTop5Handler_store_error sampleParseTime ⟨failingStorage⟩ _ "2020-05-13" ⟨737557⟩
      ⟨fun _ => none⟩ _ rfl rfl rfl⟩

/-- Claim C11 at the failing input: the storage of an empty table, whose
`DaysLimit` returns an error.  `DaysLimitHandler` writes two responses, the
error object with status 500 and then the success body with status 200, so it
does not write exactly one response. -/
theorem daysLimitHandler_writes_twice :
    emptyStorage.DaysLimit = (Time.zero, Time.zero,
      some "cannot scan days limit: converting NULL to string is unsupported") ∧
    (AnalyticsHandler.DaysLimitHandler ⟨emptyStorage⟩ (queryOf [])).written =
      [⟨StatusInternalServerError,
          .error ⟨"cannot scan days limit: converting NULL to string is unsupported"⟩⟩,
        ⟨StatusOK, .daysLimit Time.zero Time.zero⟩] ∧
    ¬ failedWith (AnalyticsHandler.DaysLimitHandler ⟨emptyStorage⟩ (queryOf []))
      "cannot scan days limit: converting NULL to string is unsupported" := by
  have hrun := daysLimitHandler_store_error ⟨emptyStorage⟩ (queryOf []) Time.zero Time.zero
    "cannot scan days limit: converting NULL to string is unsupported" rfl
  refine ⟨rfl, by rw [hrun], ?_⟩
  intro hfail
  unfold failedWith at hfail
  rw [hrun] at hfail
  have hlen := congrArg List.length hfail
  simp at hlen

end CovidAnalytics
